import Mathlib

/-!
Verification of the Dockerfile policy gate
(`anchore_engine/services/policy_engine/engine/policy/gates/dockerfile.py`).

The Python code is shallowly embedded: strings are `List Char`, the prepared
dockerfile dictionary is an association list from directive keyword to the
ordered list of logical lines, fallible code returns `Except Unit`, and each
trigger's `evaluate` is a pure function from its (already parsed) parameters
and the evaluation context to a list of findings.
-/

set_option maxRecDepth 10000

/-- Characters counted as whitespace by Python's `str.strip` / `str.split` /
the `\s` regex class (ASCII range). -/
def isPySpace (c : Char) : Bool :=
  c = ' ' || c = '\t' || c = '\n' || c = '\x0b' || c = '\x0c' || c = '\r'

/-- Coerce a Lean string literal to the character-list representation. -/
def s2c (s : String) : List Char := s.data

/-- Python `str.strip()` (whitespace from both ends). -/
def pyStrip (s : List Char) : List Char :=
  ((s.dropWhile isPySpace).reverse.dropWhile isPySpace).reverse

/-- Python `str.upper()` (ASCII). -/
def upperStr (s : List Char) : List Char := s.map Char.toUpper

/-- Python `str.lower()` (ASCII). -/
def lowerStr (s : List Char) : List Char := s.map Char.toLower

/-- The line-break characters recognised by Python `str.splitlines()`:
`\n`, `\r`, `\v`, `\f`, the file/group/record separators `\x1c`-`\x1e`,
NEL (`\x85`) and the Unicode line/paragraph separators. -/
def isLineBreak (c : Char) : Bool :=
  c = '\n' || c = '\r' || c = '\x0b' || c = '\x0c' ||
  c = '\x1c' || c = '\x1d' || c = '\x1e' || c = '\x85' ||
  c = '\u2028' || c = '\u2029'

/-- Helper for `splitlines`: `acc` is the current (reversed) line; a `\r\n`
pair counts as a single line break. -/
def splitlinesAux (acc : List Char) : List Char → List (List Char)
  | [] => if acc = [] then [] else [acc.reverse]
  | '\r' :: '\n' :: cs => acc.reverse :: splitlinesAux [] cs
  | c :: cs =>
    if isLineBreak c then acc.reverse :: splitlinesAux [] cs
    else splitlinesAux (c :: acc) cs

/-- Python `str.splitlines()`: split at every line-break character (`\r\n`
counting as one break); a final segment is emitted only when non-empty,
matching Python's behaviour of not producing a trailing empty line. -/
def splitlines (s : List Char) : List (List Char) := splitlinesAux [] s

/-- Helper for `pySplit`: `w` is the current (reversed) word. -/
def pySplitAux (w : List Char) : List Char → List (List Char)
  | [] => if w = [] then [] else [w.reverse]
  | c :: cs =>
    if isPySpace c then
      if w = [] then pySplitAux [] cs else w.reverse :: pySplitAux [] cs
    else pySplitAux (c :: w) cs

/-- Python `str.split()` with no arguments: split on whitespace runs,
discarding empty tokens. -/
def pySplit (s : List Char) : List (List Char) := pySplitAux [] s

/-- The prepared dockerfile `context.data['prepared_dockerfile']`: an
insertion-ordered dictionary from (upper-cased) directive keyword to the
list of logical lines, exactly as `DockerfileGate.prepare_context` builds
it. -/
abbrev PrepMap : Type := List (List Char × List (List Char))

/-- Python `dict.get(k)`: the value stored under `k`, if any. -/
def lookupPM (m : PrepMap) (k : List Char) : Option (List (List Char)) :=
  match m.find? (fun e => e.1 = k) with
  | some e => some e.2
  | none => none

/-- `context.data['prepared_dockerfile'][directive].append(linebuf)`, creating
the key with an empty list first when absent (insertion order preserved). -/
def addLine (m : PrepMap) (k : List Char) (v : List Char) : PrepMap :=
  if m.any (fun e => e.1 = k) then
    m.map (fun e => if e.1 = k then (e.1, e.2 ++ [v]) else e)
  else m ++ [(k, [v])]

/-- The line-folding loop of `DockerfileGate.prepare_context` (lines 363-385
of `dockerfile.py`): strip each physical line, skip blank and `#` lines, fold
a trailing-backslash line into the buffer, otherwise close the logical line by
splitting on the first `' '` (Python `linebuf.split(' ', 1)` raises a
`ValueError` — modelled as `Except.error ()` — when the buffer contains no
space). -/
def parseLines : List (List Char) → PrepMap → List Char → Except Unit PrepMap
  | [], m, _ => .ok m
  | l :: ls, m, buf =>
    let l' := pyStrip l
    if l' = [] ∨ l'.head? = some '#' then parseLines ls m buf
    else if l'.getLast? = some '\\' then parseLines ls m (buf ++ l'.dropLast)
    else
      let buf' := buf ++ l'
      if buf' = [] then parseLines ls m []
      else if ' ' ∈ buf' then
        parseLines ls (addLine m (upperStr (buf'.takeWhile (fun c => c ≠ ' '))) buf') []
      else .error ()

/-- `DockerfileGate.prepare_context`: for mode `"Unknown"` it returns without
creating the `prepared_dockerfile` slot (`none`); otherwise it creates the
empty dictionary and, when the dockerfile contents are truthy, folds them into
it. `contents = none` models `image_obj.dockerfile_contents` being `None`. -/
def DockerfileGate.prepare_context (mode : List Char) (contents : Option (List Char)) :
    Except Unit (Option PrepMap) :=
  if mode = s2c "Unknown" then .ok none
  else
    match contents with
    | some s => if s = [] then .ok (some []) else (parseLines (splitlines s) [] []).map some
    | none => .ok (some [])

/-- The guard `if not context.data.get('prepared_dockerfile'): return` shared
by every trigger except `NoDockerfile`: it trips both when the slot is absent
(`none`) and when the dictionary is empty (a falsy `{}`). -/
def guardBlocked : Option PrepMap → Bool
  | none => true
  | some m => m.isEmpty

/-- The prepared dictionary held by the context (empty when absent; only read
behind the guard). -/
def ctxMap : Option PrepMap → PrepMap
  | none => []
  | some m => m

/-- One finding (`self._fire(...)`) per firing site of the gate's triggers,
carrying the data interpolated into the fired message. -/
inductive Finding where
  | userNotAllowed (user : List Char)
  | userDenied (user : List Char)
  | directiveMatched (directive check line : List Char)
  | directiveMissing (directive : List Char)
  | exposeDeniedAll (tokens : List (List Char))
  | exposeDenied (port : List Char)
  | exposeDeniedTcp (port : List Char)
  | exposeDeniedUdp (port : List Char)
  | exposeAllowedNone (tokens : List (List Char))
  | exposeNotAllowed (token : List Char)
  | noFrom
  | fromScratch (base : List Char)
  | noTag (base : List Char)
  | sudoLine (line : List Char)
  | volumeLine (line : List Char)
  | noHealthcheck
  | noDockerfile
deriving DecidableEq

/-- Embedding of `re.match("^\s*(KEYWORD|keyword)\s+(.*)", line)`, returning
group 2: after optional leading whitespace the line must carry the keyword in
exactly upper or exactly lower case followed by at least one whitespace
character; the group is everything after that whitespace run. Used by the
`ExposeTrigger`, `FromScratch` and `NoTag` triggers. -/
def kwArg (kwU kwL : List Char) (line : List Char) : Option (List Char) :=
  let l := line.dropWhile isPySpace
  let rest? : Option (List Char) :=
    if kwU.isPrefixOf l then some (l.drop kwU.length)
    else if kwL.isPrefixOf l then some (l.drop kwL.length)
    else none
  match rest? with
  | none => none
  | some rest =>
    match rest with
    | [] => none
    | c :: _ => if isPySpace c then some (rest.dropWhile isPySpace) else none

/-- `NoDockerfile.evaluate`: ignores the context entirely and fires once
whenever `image_obj.dockerfile_mode != 'Actual'`. -/
def NoDockerfile.evaluate (mode : List Char) : List Finding :=
  if mode ≠ s2c "Actual" then [Finding.noDockerfile] else []

/-- `NoFromTrigger.evaluate`: behind the shared guard, fires once when
`prepared_dockerfile.get('FROM')` is falsy (key absent or empty list). -/
def NoFromTrigger.evaluate (ctx : Option PrepMap) : List Finding :=
  if guardBlocked ctx then []
  else if (lookupPM (ctxMap ctx) (s2c "FROM")).getD [] = [] then [Finding.noFrom]
  else []

/-- `NoHealthCheck.evaluate`: behind the guard, fires once when the manifest
has no (or only falsy) `HEALTHCHECK` entry. -/
def NoHealthCheck.evaluate (ctx : Option PrepMap) : List Finding :=
  if guardBlocked ctx then []
  else if (lookupPM (ctxMap ctx) (s2c "HEALTHCHECK")).getD [] = [] then [Finding.noHealthcheck]
  else []

/-- `VolumePresent.evaluate`: behind the guard, fires once per `VOLUME`
logical line. -/
def VolumePresent.evaluate (ctx : Option PrepMap) : List Finding :=
  if guardBlocked ctx then []
  else ((lookupPM (ctxMap ctx) (s2c "VOLUME")).getD []).map Finding.volumeLine

/-- Does the line contain `"sudo"` as a contiguous substring?  This is the
meaning of `re.match(".*sudo.*", line)` on a newline-free line. -/
def containsSudo : List Char → Bool
  | [] => false
  | c :: cs => (s2c "sudo").isPrefixOf (c :: cs) || containsSudo cs

/-- `Sudo.evaluate`: behind the guard, scans the raw dockerfile contents line
by line and fires once per stripped line containing `sudo`. -/
def Sudo.evaluate (contents : Option (List Char)) (ctx : Option PrepMap) : List Finding :=
  if guardBlocked ctx then []
  else
    match contents with
    | none => []
    | some s =>
      if s = [] then []
      else (splitlines s).flatMap (fun l =>
        let l' := pyStrip l
        if containsSudo l' then [Finding.sudoLine l'] else [])

/-- The last-colon split performed by `re.match("(\S+):(\S+)", fromstr)` in
`NoTag.evaluate`: the match succeeds iff the initial whitespace-free token of
`fromstr` has a colon with at least one character before it and at least one
character after it inside the token; backtracking of the greedy first group
selects the rightmost such colon, and group 2 is the rest of the token. -/
def repoTag (fromstr : List Char) : Option (List Char) :=
  let t := fromstr.takeWhile (fun c => ¬ isPySpace c)
  let js := (List.range t.length).filter (fun j => t[j]? = some ':' ∧ 1 ≤ j ∧ j + 1 < t.length)
  match js.getLast? with
  | some j => some (t.drop (j + 1))
  | none => none

/-- Per-line body of `NoTag.evaluate`. -/
def NoTag.lineFindings (line : List Char) : List Finding :=
  match kwArg (s2c "FROM") (s2c "from") line with
  | none => []
  | some f =>
    if f = [] then []
    else
      match repoTag f with
      | some tag => if tag = s2c "latest" then [Finding.noTag f] else []
      | none => [Finding.noTag f]

/-- `NoTag.evaluate`: behind the guard, fires for each `FROM` line whose
argument either carries the explicit tag `latest` or no tag at all. -/
def NoTag.evaluate (ctx : Option PrepMap) : List Finding :=
  if guardBlocked ctx then []
  else ((lookupPM (ctxMap ctx) (s2c "FROM")).getD []).flatMap NoTag.lineFindings

/-- Per-line body of `FromScratch.evaluate`.  When the extraction regex does
not match, `fromstr` is `None` and the Python condition
`fromstr == 'SCRATCH' or fromstr.lower() == 'scratch'` raises an
`AttributeError` (`None.lower()`), modelled as `Except.error ()`. -/
def FromScratch.lineEval (line : List Char) : Except Unit (List Finding) :=
  match kwArg (s2c "FROM") (s2c "from") line with
  | some f =>
    .ok (if f = s2c "SCRATCH" ∨ lowerStr f = s2c "scratch" then [Finding.fromScratch f] else [])
  | none => .error ()

/-- Accumulate findings of a fallible per-line evaluation in order, aborting
at the first raised error. -/
def exceptConcat (f : List Char → Except Unit (List Finding)) :
    List (List Char) → Except Unit (List Finding)
  | [] => .ok []
  | x :: xs =>
    match f x with
    | .error e => .error e
    | .ok a =>
      match exceptConcat f xs with
      | .error e => .error e
      | .ok b => .ok (a ++ b)

/-- `FromScratch.evaluate`: behind the guard, fires for each `FROM` line whose
extracted argument is `SCRATCH` or lower-cases to `scratch`. -/
def FromScratch.evaluate (ctx : Option PrepMap) : Except Unit (List Finding) :=
  if guardBlocked ctx then .ok []
  else exceptConcat FromScratch.lineEval ((lookupPM (ctxMap ctx) (s2c "FROM")).getD [])

/-- The `([^\]]+)` group with its optional closing bracket: the greedy
non-`]` run from here, failing when empty. -/
def groupFrom (r : List Char) : Option (List Char) :=
  let g := r.takeWhile (fun c => c ≠ ']')
  if g = [] then none else some g

/-- Backtracking over the greedy `\s+` of the `EffectiveUserTrigger` pattern
`\s*USER\s+\[?([^\]]+)\]?\s*`: try consuming `k+1, k, ..., 1` whitespace
characters of `r` (longest first, as the regex engine does); for each amount
first try to consume an optional `[`, then take the greedy non-`]` group. -/
def userTryWs (r : List Char) : Nat → Option (List Char)
  | 0 => none
  | k + 1 =>
    let r2 := r.drop (k + 1)
    match (match r2 with | '[' :: rest => groupFrom rest | _ => none) with
    | some g => some g
    | none =>
      match groupFrom r2 with
      | some g => some g
      | none => userTryWs r k

/-- Attempt to match `\s*USER\s+\[?([^\]]+)\]?\s*` at the start of `s`,
returning group 1: the `\s*` must reach a literal (case-sensitive) `USER`,
after which at least one whitespace character is required. -/
def userMatchAt (s : List Char) : Option (List Char) :=
  let t := s.dropWhile isPySpace
  if (s2c "USER").isPrefixOf t then
    let r := t.drop 4
    userTryWs r (r.takeWhile isPySpace).length
  else none

/-- `re.search(self._sanitize_regex, user)` of `EffectiveUserTrigger`: try the
pattern at every start position left to right and return group 1 of the
leftmost match. -/
def userSearch : List Char → Option (List Char)
  | [] => none
  | s@(_ :: rest) =>
    match userMatchAt s with
    | some g => some g
    | none => userSearch rest

/-- `EffectiveUserTrigger.evaluate` with its `ALLOWED` and `DENIED` parameters
already split into lists: behind the guard, take the last `USER` line
(defaulting to `USER root`), extract the user with `userSearch`; on extraction
failure log and return nothing, otherwise fire the allowed-list check and the
denied-list check independently. -/
def EffectiveUserTrigger.evaluate (allowed denied : List (List Char)) (ctx : Option PrepMap) :
    List Finding :=
  if guardBlocked ctx then []
  else
    let userLines0 := (lookupPM (ctxMap ctx) (s2c "USER")).getD []
    let userLines := if userLines0 = [] then [s2c "USER root"] else userLines0
    let user0 := pyStrip (userLines.getLast?.getD [])
    match userSearch user0 with
    | none => []
    | some user =>
      (if allowed ≠ [] ∧ user ∉ allowed then [Finding.userNotAllowed user] else []) ++
      (if denied ≠ [] ∧ user ∈ denied then [Finding.userDenied user] else [])

/-- `bool(re.match(pat, x))` for a compiled pattern: true iff the pattern
matches starting at position 0 of `x`, i.e. accepts some prefix of `x`
(`re.match` anchors only the start, not the end). -/
def pyReMatch (pat : RegularExpression Char) (x : List Char) : Bool :=
  x.inits.any (fun p => pat.rmatch p)

/-- The `'like'` entry of `DirectiveCheckTrigger.ops`:
`lambda x, y: bool(re.match(y, x))`, with the pattern modelled at the
compiled-regex level. -/
def DirectiveCheckTrigger.op_like (x : List Char) (pat : RegularExpression Char) : Bool :=
  pyReMatch pat x

/-- The `'not_like'` entry of `DirectiveCheckTrigger.ops`:
`lambda x, y: not bool(re.match(y, x))`. -/
def DirectiveCheckTrigger.op_not_like (x : List Char) (pat : RegularExpression Char) : Bool :=
  !pyReMatch pat x

/-- The `'='` entry of `DirectiveCheckTrigger.ops` (`x == y`, where a missing
`CHECK_VALUE` is `None`, never equal to a string). -/
def DirectiveCheckTrigger.op_eq (x : List Char) : Option (List Char) → Bool
  | some v => x = v
  | none => false

/-- The `'!='` entry of `DirectiveCheckTrigger.ops`. -/
def DirectiveCheckTrigger.op_ne (x : List Char) : Option (List Char) → Bool
  | some v => x ≠ v
  | none => true

/-- Is `check` a key of `DirectiveCheckTrigger.ops`?  `operation =
self.ops[condition]` raises a `KeyError` (before the `not condition` test)
when it is not. -/
def DirectiveCheckTrigger.opsKey (check : List Char) : Bool :=
  check = s2c "=" || check = s2c "!=" || check = s2c "exists" ||
  check = s2c "not_exists" || check = s2c "like" || check = s2c "not_like"

/-- Apply the looked-up operation to a stripped line and `CHECK_VALUE`.  For
`like`/`not_like` the `CHECK_VALUE` is used as a regular expression (its
compiled form is `pat`); a `None` value there makes `re.match` raise, modelled
as an error. -/
def DirectiveCheckTrigger.opsApply (check : List Char) (pat : Option (RegularExpression Char))
    (x : List Char) (y : Option (List Char)) : Except Unit Bool :=
  if check = s2c "=" then .ok (DirectiveCheckTrigger.op_eq x y)
  else if check = s2c "!=" then .ok (DirectiveCheckTrigger.op_ne x y)
  else if check = s2c "exists" then .ok true
  else if check = s2c "not_exists" then .ok false
  else if check = s2c "like" then
    match pat with
    | some r => .ok (DirectiveCheckTrigger.op_like x r)
    | none => .error ()
  else if check = s2c "not_like" then
    match pat with
    | some r => .ok (DirectiveCheckTrigger.op_not_like x r)
    | none => .error ()
  else .error ()

/-- Inner loop of `DirectiveCheckTrigger.evaluate`: for each logical line of
one directive, strip the directive-length prefix and apply the operation. -/
def DirectiveCheckTrigger.dcLines (check : List Char) (pat : Option (RegularExpression Char))
    (cv : Option (List Char)) (directive : List Char) :
    List (List Char) → Except Unit (List Finding)
  | [] => .ok []
  | l :: ls =>
    let l' := pyStrip (l.drop directive.length)
    match DirectiveCheckTrigger.opsApply check pat l' cv with
    | .error e => .error e
    | .ok b =>
      match DirectiveCheckTrigger.dcLines check pat cv directive ls with
      | .error e => .error e
      | .ok rest =>
        .ok ((if b then [Finding.directiveMatched directive check l'] else []) ++ rest)

/-- Outer loop of `DirectiveCheckTrigger.evaluate` over the (already
filtered) dictionary entries. -/
def DirectiveCheckTrigger.dcEntries (check : List Char) (pat : Option (RegularExpression Char))
    (cv : Option (List Char)) : List (List Char × List (List Char)) → Except Unit (List Finding)
  | [] => .ok []
  | e :: es =>
    match DirectiveCheckTrigger.dcLines check pat cv e.1 e.2 with
    | .error err => .error err
    | .ok a =>
      match DirectiveCheckTrigger.dcEntries check pat cv es with
      | .error err => .error err
      | .ok b => .ok (a ++ b)

/-- `DirectiveCheckTrigger.evaluate`: behind the guard, upper-case and
de-duplicate the requested `DIRECTIVES`, look the `CHECK` condition up in
`ops` (raising on an unknown or missing condition), run the per-line loop on
every present requested directive, and for `not_exists` additionally fire
once per requested directive absent from the dictionary's key set. -/
def DirectiveCheckTrigger.evaluate (directivesParam : List (List Char))
    (check : Option (List Char)) (pat : Option (RegularExpression Char))
    (cv : Option (List Char)) (ctx : Option PrepMap) : Except Unit (List Finding) :=
  if guardBlocked ctx then .ok []
  else
    let directives := (directivesParam.map upperStr).dedup
    match check with
    | none => .error ()
    | some c =>
      if ¬ DirectiveCheckTrigger.opsKey c then .error ()
      else if directives = [] then .ok []
      else
        let df := ctxMap ctx
        match DirectiveCheckTrigger.dcEntries c pat cv (df.filter (fun e => e.1 ∈ directives)) with
        | .error err => .error err
        | .ok perLine =>
          let extra :=
            if c = s2c "not_exists" then
              (directives.filter (fun d => d ∉ df.map (fun e => upperStr e.1))).map
                Finding.directiveMissing
            else []
          .ok (perLine ++ extra)

/-- One `try: iexpose.remove(x) ... except:` attempt: Python `list.remove`
deletes the first occurrence or raises; the boolean is the `done` value the
attempt assigns (`true` exactly when the removal raised). -/
def tryRemove (x : List Char) (l : List (List Char)) : List (List Char) × Bool :=
  if x ∈ l then (l.erase x, false) else (l, true)

/-- One pass of the `while not done` body in `ExposeTrigger.evaluate` (lines
189-208 of `dockerfile.py`): three `iexpose.remove(...)` attempts — plain
port, `port/tcp`, `port/udp` — each of which removes the first occurrence or
raises.  Every `try/except` overwrites `done`, so after the body `done` holds
exactly when the final (`/udp`) removal failed; the returned boolean is that
final `done` value. -/
def ExposeTrigger.loopBody (p : List Char) (l : List (List Char)) :
    List (List Char) × Bool :=
  let r1 := tryRemove p l
  let r2 := tryRemove (p ++ s2c "/tcp") r1.1
  let r3 := tryRemove (p ++ s2c "/udp") r2.1
  (r3.1, r3.2)

/-- The `while not done` loop, fuelled: the loop repeats its body as long as
the body's final removal succeeded.  One unit of fuel per iteration; since
every iteration except the last removes a `port/udp` occurrence, the loop
performs at most `l.length + 1` iterations and `removeLoop` below always
supplies enough fuel, so the fuelled function agrees with the Python loop. -/
def ExposeTrigger.removeLoopFuel (p : List Char) : Nat → List (List Char) → List (List Char)
  | 0, l => l
  | n + 1, l =>
    match ExposeTrigger.loopBody p l with
    | (l', true) => l'
    | (l', false) => ExposeTrigger.removeLoopFuel p n l'

/-- The complete effect of the `while not done` loop on the working token
list for one allowed port `p`. -/
def ExposeTrigger.removeLoop (p : List Char) (l : List (List Char)) : List (List Char) :=
  ExposeTrigger.removeLoopFuel p (l.length + 1) l

/-- Modelled from the spec: the allowed-port removal as §4.4 describes it —
"remove at most one occurrence of the plain form, at most one of the `/tcp`
form, and at most one of the `/udp` form (three independent single-removal
attempts, not a loop to exhaustion)".  This is the claimed behaviour, to be
compared with `ExposeTrigger.removeLoop` taken from the code. -/
def exposeRemoveSpec (p : List Char) (l : List (List Char)) : List (List Char) :=
  let l1 := if p ∈ l then l.erase p else l
  let l2 := if p ++ s2c "/tcp" ∈ l1 then l1.erase (p ++ s2c "/tcp") else l1
  if p ++ s2c "/udp" ∈ l2 then l2.erase (p ++ s2c "/udp") else l2

/-- The denied-ports check of `ExposeTrigger.evaluate` for one denied port on
one line's token list: an `if/elif/elif` chain over membership, so at most
one finding (plain form first, then `/tcp`, then `/udp`). -/
def ExposeTrigger.deniedPortFindings (p : List Char) (iexpose : List (List Char)) :
    List Finding :=
  if p ∈ iexpose then [Finding.exposeDenied p]
  else if p ++ s2c "/tcp" ∈ iexpose then [Finding.exposeDeniedTcp p]
  else if p ++ s2c "/udp" ∈ iexpose then [Finding.exposeDeniedUdp p]
  else []

/-- Per-`EXPOSE`-line body of `ExposeTrigger.evaluate`: strip the line, match
the `EXPOSE`/`expose` keyword, split the remainder into tokens, then run the
denied-ports check followed by the allowed-ports check (whose removal loop
works on a copy of the token list). -/
def ExposeTrigger.lineFindings (allowed denied : List (List Char)) (line : List Char) :
    List Finding :=
  match kwArg (s2c "EXPOSE") (s2c "expose") (pyStrip line) with
  | none => []
  | some matchstr =>
    if matchstr = [] then []
    else
      let iexpose := pySplit matchstr
      let deniedF :=
        if denied = [] then []
        else if s2c "ALL" ∈ denied ∧ 0 < iexpose.length then [Finding.exposeDeniedAll iexpose]
        else denied.flatMap (fun p => ExposeTrigger.deniedPortFindings p iexpose)
      let allowedF :=
        if allowed = [] then []
        else if s2c "NONE" ∈ allowed ∧ 0 < iexpose.length then [Finding.exposeAllowedNone iexpose]
        else
          (allowed.foldl (fun acc p => ExposeTrigger.removeLoop p acc) iexpose).map
            Finding.exposeNotAllowed
      deniedF ++ allowedF

/-- `ExposeTrigger.evaluate` with `ALLOWEDPORTS`/`DENIEDPORTS` already split
into lists: behind the guard, process each `EXPOSE` logical line. -/
def ExposeTrigger.evaluate (allowed denied : List (List Char)) (ctx : Option PrepMap) :
    List Finding :=
  if guardBlocked ctx then []
  else ((lookupPM (ctxMap ctx) (s2c "EXPOSE")).getD []).flatMap
    (ExposeTrigger.lineFindings allowed denied)




/-! ### Helper lemmas -/

theorem tryRemove_fst_count_self (x : List Char) (l : List (List Char)) :
    (tryRemove x l).1.count x = l.count x - 1 := by
  unfold tryRemove
  by_cases h : x ∈ l
  · simp [h]
  · simp [h, List.count_eq_zero_of_not_mem h]

theorem tryRemove_fst_count_ne (x y : List Char) (l : List (List Char)) (h : y ≠ x) :
    (tryRemove x l).1.count y = l.count y := by
  unfold tryRemove
  by_cases hx : x ∈ l
  · simp [hx, List.count_erase_of_ne h]
  · simp [hx]

theorem tryRemove_snd_eq (x : List Char) (l : List (List Char)) :
    ((tryRemove x l).2 = true) ↔ x ∉ l := by
  unfold tryRemove
  by_cases hx : x ∈ l <;> simp [hx]

theorem ne_append_of_ne_nil {t : List Char} (p : List Char) (ht : t ≠ []) : p ≠ p ++ t := by
  intro h
  have hlen := congrArg List.length h
  rw [List.length_append] at hlen
  have ht0 : t.length = 0 := by omega
  exact ht (List.length_eq_zero.mp ht0)

theorem tcp_ne_udp (p : List Char) : p ++ s2c "/tcp" ≠ p ++ s2c "/udp" := by
  intro h
  have h2 := List.append_cancel_left h
  exact absurd h2 (by decide)

theorem ExposeTrigger.loopBody_count_p (p : List Char) (l : List (List Char)) :
    (ExposeTrigger.loopBody p l).1.count p = l.count p - 1 := by
  simp only [ExposeTrigger.loopBody]
  rw [tryRemove_fst_count_ne _ _ _ (ne_append_of_ne_nil p (by decide)),
    tryRemove_fst_count_ne _ _ _ (ne_append_of_ne_nil p (by decide)),
    tryRemove_fst_count_self]

theorem ExposeTrigger.loopBody_count_tcp (p : List Char) (l : List (List Char)) :
    (ExposeTrigger.loopBody p l).1.count (p ++ s2c "/tcp") = l.count (p ++ s2c "/tcp") - 1 := by
  simp only [ExposeTrigger.loopBody]
  rw [tryRemove_fst_count_ne _ _ _ (tcp_ne_udp p), tryRemove_fst_count_self,
    tryRemove_fst_count_ne _ _ _ (ne_append_of_ne_nil p (by decide)).symm]

theorem ExposeTrigger.loopBody_count_udp (p : List Char) (l : List (List Char)) :
    (ExposeTrigger.loopBody p l).1.count (p ++ s2c "/udp") = l.count (p ++ s2c "/udp") - 1 := by
  simp only [ExposeTrigger.loopBody]
  rw [tryRemove_fst_count_self, tryRemove_fst_count_ne _ _ _ (tcp_ne_udp p).symm,
    tryRemove_fst_count_ne _ _ _ (ne_append_of_ne_nil p (by decide)).symm]

theorem ExposeTrigger.loopBody_count_other (p x : List Char) (l : List (List Char))
    (h1 : x ≠ p) (h2 : x ≠ p ++ s2c "/tcp") (h3 : x ≠ p ++ s2c "/udp") :
    (ExposeTrigger.loopBody p l).1.count x = l.count x := by
  simp only [ExposeTrigger.loopBody]
  rw [tryRemove_fst_count_ne _ _ _ h3, tryRemove_fst_count_ne _ _ _ h2,
    tryRemove_fst_count_ne _ _ _ h1]

theorem ExposeTrigger.loopBody_snd (p : List Char) (l : List (List Char)) :
    ((ExposeTrigger.loopBody p l).2 = true) ↔ l.count (p ++ s2c "/udp") = 0 := by
  simp only [ExposeTrigger.loopBody]
  rw [tryRemove_snd_eq, ← List.count_eq_zero,
    tryRemove_fst_count_ne _ _ _ (tcp_ne_udp p).symm,
    tryRemove_fst_count_ne _ _ _ (ne_append_of_ne_nil p (by decide)).symm]

theorem ExposeTrigger.removeLoopFuel_count (p : List Char) :
    ∀ (n : Nat) (l : List (List Char)), l.count (p ++ s2c "/udp") < n →
      (ExposeTrigger.removeLoopFuel p n l).count (p ++ s2c "/udp") = 0 ∧
      (ExposeTrigger.removeLoopFuel p n l).count p
        = l.count p - (l.count (p ++ s2c "/udp") + 1) ∧
      (ExposeTrigger.removeLoopFuel p n l).count (p ++ s2c "/tcp")
        = l.count (p ++ s2c "/tcp") - (l.count (p ++ s2c "/udp") + 1) ∧
      ∀ x : List Char, x ≠ p → x ≠ p ++ s2c "/tcp" → x ≠ p ++ s2c "/udp" →
        (ExposeTrigger.removeLoopFuel p n l).count x = l.count x := by
  intro n
  induction n with
  | zero => intro l h; exact absurd h (Nat.not_lt_zero _)
  | succ n ih =>
    intro l h
    rcases hb : ExposeTrigger.loopBody p l with ⟨l', d⟩
    have hcu : l'.count (p ++ s2c "/udp") = l.count (p ++ s2c "/udp") - 1 := by
      have hx := ExposeTrigger.loopBody_count_udp p l; rw [hb] at hx; exact hx
    have hcp : l'.count p = l.count p - 1 := by
      have hx := ExposeTrigger.loopBody_count_p p l; rw [hb] at hx; exact hx
    have hct : l'.count (p ++ s2c "/tcp") = l.count (p ++ s2c "/tcp") - 1 := by
      have hx := ExposeTrigger.loopBody_count_tcp p l; rw [hb] at hx; exact hx
    cases d with
    | true =>
      have h0 : l.count (p ++ s2c "/udp") = 0 := by
        have hx := ExposeTrigger.loopBody_snd p l; rw [hb] at hx; exact hx.mp rfl
      have hres : ExposeTrigger.removeLoopFuel p (n + 1) l = l' := by
        simp [ExposeTrigger.removeLoopFuel, hb]
      refine ⟨?_, ?_, ?_, ?_⟩ <;> rw [hres]
      · omega
      · omega
      · omega
      · intro x hx1 hx2 hx3
        have hx := ExposeTrigger.loopBody_count_other p x l hx1 hx2 hx3
        rw [hb] at hx; exact hx
    | false =>
      have hne : l.count (p ++ s2c "/udp") ≠ 0 := by
        intro h0
        have hx := ExposeTrigger.loopBody_snd p l; rw [hb] at hx
        exact Bool.false_ne_true (hx.mpr h0)
      have hres : ExposeTrigger.removeLoopFuel p (n + 1) l
          = ExposeTrigger.removeLoopFuel p n l' := by
        simp [ExposeTrigger.removeLoopFuel, hb]
      have hlt : l'.count (p ++ s2c "/udp") < n := by omega
      obtain ⟨g1, g2, g3, g4⟩ := ih l' hlt
      refine ⟨?_, ?_, ?_, ?_⟩ <;> rw [hres]
      · exact g1
      · rw [g2]; omega
      · rw [g3]; omega
      · intro x hx1 hx2 hx3
        rw [g4 x hx1 hx2 hx3]
        have hx := ExposeTrigger.loopBody_count_other p x l hx1 hx2 hx3
        rw [hb] at hx; exact hx

theorem dcLines_not_exists (pat : Option (RegularExpression Char)) (cv : Option (List Char))
    (directive : List Char) (ls : List (List Char)) :
    DirectiveCheckTrigger.dcLines (s2c "not_exists") pat cv directive ls = .ok [] := by
  induction ls with
  | nil => rfl
  | cons l ls ih =>
    rw [DirectiveCheckTrigger.dcLines]
    have hop : DirectiveCheckTrigger.opsApply (s2c "not_exists") pat
        (pyStrip (l.drop directive.length)) cv = .ok false := rfl
    rw [hop, ih]
    rfl

theorem dcEntries_not_exists (pat : Option (RegularExpression Char)) (cv : Option (List Char))
    (es : List (List Char × List (List Char))) :
    DirectiveCheckTrigger.dcEntries (s2c "not_exists") pat cv es = .ok [] := by
  induction es with
  | nil => rfl
  | cons e es ih =>
    rw [DirectiveCheckTrigger.dcEntries, dcLines_not_exists, ih]
    rfl

theorem scratch_cond (f : List Char) :
    (f = s2c "SCRATCH" ∨ lowerStr f = s2c "scratch") ↔ lowerStr f = s2c "scratch" := by
  constructor
  · rintro (rfl | h)
    · decide
    · exact h
  · exact Or.inr

theorem exceptConcat_fromScratch (fl : List (List Char))
    (h : ∀ l ∈ fl, kwArg (s2c "FROM") (s2c "from") l ≠ none) :
    exceptConcat FromScratch.lineEval fl =
      .ok (fl.flatMap (fun l =>
        match kwArg (s2c "FROM") (s2c "from") l with
        | some f => if lowerStr f = s2c "scratch" then [Finding.fromScratch f] else []
        | none => [])) := by
  induction fl with
  | nil => rfl
  | cons l ls ih =>
    obtain ⟨f, hf⟩ := Option.ne_none_iff_exists'.mp (h l (List.mem_cons_self l ls))
    have hline : FromScratch.lineEval l =
        .ok (if lowerStr f = s2c "scratch" then [Finding.fromScratch f] else []) := by
      rw [FromScratch.lineEval, hf]
      simp only [scratch_cond]
    rw [exceptConcat, hline, ih (fun x hx => h x (List.mem_cons_of_mem l hx))]
    rw [List.flatMap_cons, hf]

/-! ### Claim theorems -/

/-- C1 (amended): the claim held only for mode `Unknown`.  For mode
`Unknown` the preparation step leaves the `prepared_dockerfile` slot absent
and every manifest-dependent trigger then yields zero findings, while the
`NoDockerfile` (manifest-presence) trigger fires exactly once for every mode
other than `Actual`.  (For mode `Guessed` the prepared structure is built
from the contents and manifest-dependent triggers may fire — see the
counterexample.) -/
theorem C1_nonActual_modes :
    (∀ mode : List Char, mode ≠ s2c "Actual" →
      NoDockerfile.evaluate mode = [Finding.noDockerfile]) ∧
    (∀ contents, DockerfileGate.prepare_context (s2c "Unknown") contents = .ok none) ∧
    (∀ allowed denied, EffectiveUserTrigger.evaluate allowed denied none = []) ∧
    (∀ dirs chk pat cv, DirectiveCheckTrigger.evaluate dirs chk pat cv none = .ok []) ∧
    (∀ allowed denied, ExposeTrigger.evaluate allowed denied none = []) ∧
    NoFromTrigger.evaluate none = [] ∧
    FromScratch.evaluate none = .ok [] ∧
    NoTag.evaluate none = [] ∧
    (∀ contents, Sudo.evaluate contents none = []) ∧
    VolumePresent.evaluate none = [] ∧
    NoHealthCheck.evaluate none = [] := by
  refine ⟨?_, fun _ => rfl, fun _ _ => rfl, fun _ _ _ _ => rfl, fun _ _ => rfl,
    rfl, rfl, rfl, fun _ => rfl, rfl, rfl⟩
  intro mode h
  rw [NoDockerfile.evaluate, if_pos h]

/-- C1 witness: mode `Guessed` is not `Actual` and makes `NoDockerfile` fire
exactly once. -/
theorem C1_nonActual_modes_witness :
    NoDockerfile.evaluate (s2c "Guessed") = [Finding.noDockerfile] :=
  C1_nonActual_modes.1 (s2c "Guessed") (by decide)

/-- C1 counterexample: for mode `Guessed` (≠ `Actual`) with contents
`FROM ubuntu`, `prepare_context` does build the prepared dictionary
(the code only skips mode `Unknown`), and the manifest-dependent
`NoHealthCheck` trigger then yields a finding instead of zero findings. -/
theorem C1_nonActual_modes_counterexample :
    s2c "Guessed" ≠ s2c "Actual" ∧
    DockerfileGate.prepare_context (s2c "Guessed") (some (s2c "FROM ubuntu")) =
      .ok (some [(s2c "FROM", [s2c "FROM ubuntu"])]) ∧
    NoHealthCheck.evaluate (some [(s2c "FROM", [s2c "FROM ubuntu"])]) =
      [Finding.noHealthcheck] ∧
    ([Finding.noHealthcheck] : List Finding) ≠ [] :=
  ⟨by decide, rfl, rfl, by decide⟩

/-- C2 (amended): the `while not done` loop repeats its three-removal body as
long as the `/udp` removal succeeded, because every `try/except` overwrites
`done`.  Hence for each allowed port `p` the loop removes ALL `p/udp`
occurrences, removes up to `count(p/udp) + 1` occurrences of the plain form
and of the `/tcp` form (one per pass), and leaves every other token count
unchanged; the surviving tokens are then each reported as not in
`ALLOWEDPORTS`.  The claimed "at most one removal per suffix variant" holds
only when the list carries at most one `/udp` occurrence of the port. -/
theorem C2_allowed_removal_loop (p : List Char) (l : List (List Char)) :
    (ExposeTrigger.removeLoop p l).count (p ++ s2c "/udp") = 0 ∧
    (ExposeTrigger.removeLoop p l).count p = l.count p - (l.count (p ++ s2c "/udp") + 1) ∧
    (ExposeTrigger.removeLoop p l).count (p ++ s2c "/tcp")
      = l.count (p ++ s2c "/tcp") - (l.count (p ++ s2c "/udp") + 1) ∧
    ∀ x : List Char, x ≠ p → x ≠ p ++ s2c "/tcp" → x ≠ p ++ s2c "/udp" →
      (ExposeTrigger.removeLoop p l).count x = l.count x :=
  ExposeTrigger.removeLoopFuel_count p (l.length + 1) l
    (Nat.lt_succ_of_le (List.count_le_length _ _))

/-- C2 witness: for allowed port `80` on the token list `["80", "22"]` the
loop leaves the count of the unrelated token `22` unchanged. -/
theorem C2_allowed_removal_loop_witness :
    (ExposeTrigger.removeLoop (s2c "80") [s2c "80", s2c "22"]).count (s2c "22")
      = ([s2c "80", s2c "22"] : List (List Char)).count (s2c "22") :=
  (C2_allowed_removal_loop (s2c "80") [s2c "80", s2c "22"]).2.2.2 (s2c "22")
    (by decide) (by decide) (by decide)

/-- C2 counterexample: with `ALLOWEDPORTS = [80]` and the token list
`["80/udp", "80/udp"]`, the code removes BOTH `/udp` occurrences (the loop
re-runs after a successful `/udp` removal), so the duplicate beyond the first
matching occurrence does not remain and nothing is reported — whereas the
claimed three bounded single-removal attempts (`exposeRemoveSpec`, written
from the spec) would leave one `80/udp` to report. -/
theorem C2_allowed_removal_loop_counterexample :
    ExposeTrigger.removeLoop (s2c "80") [s2c "80/udp", s2c "80/udp"] = [] ∧
    exposeRemoveSpec (s2c "80") [s2c "80/udp", s2c "80/udp"] = [s2c "80/udp"] ∧
    ExposeTrigger.evaluate [s2c "80"] []
      (some [(s2c "EXPOSE", [s2c "EXPOSE 80/udp 80/udp"])]) = [] ∧
    ExposeTrigger.removeLoop (s2c "80") [s2c "80/udp", s2c "80/udp"] ≠
      exposeRemoveSpec (s2c "80") [s2c "80/udp", s2c "80/udp"] :=
  ⟨rfl, rfl, rfl, by decide⟩

/-- C3 (amended): the denied-ports check is an `if/elif/elif` chain, so for
each denied port it fires AT MOST ONCE per `EXPOSE` line — it fires exactly
when one of the three variants (plain, `/tcp`, `/udp`) is among the line's
tokens, with the plain form taking precedence — never up to three times. -/
theorem C3_denied_ports_single_finding (p : List Char) (iexpose : List (List Char)) :
    (ExposeTrigger.deniedPortFindings p iexpose).length ≤ 1 ∧
    (ExposeTrigger.deniedPortFindings p iexpose ≠ [] ↔
      p ∈ iexpose ∨ p ++ s2c "/tcp" ∈ iexpose ∨ p ++ s2c "/udp" ∈ iexpose) := by
  unfold ExposeTrigger.deniedPortFindings
  split_ifs with h1 h2 h3 <;> simp_all

/-- C3 counterexample: on the line `EXPOSE 22 22/tcp 22/udp` with
`DENIEDPORTS = [22]`, all three variants of the denied port appear as tokens,
yet the trigger fires once (for the plain form), not three times as the claim
states. -/
theorem C3_denied_ports_counterexample :
    ExposeTrigger.evaluate [] [s2c "22"]
      (some [(s2c "EXPOSE", [s2c "EXPOSE 22 22/tcp 22/udp"])]) =
      [Finding.exposeDenied (s2c "22")] ∧
    ([Finding.exposeDenied (s2c "22")] : List Finding).length ≠ 3 :=
  ⟨rfl, by decide⟩

/-- C4 (amended): for a mode-`Actual` manifest whose prepared dictionary is
NON-EMPTY and has no `FROM` key, `NoFromTrigger` fires exactly once.  When
the dictionary is empty (e.g. a comments-and-blanks-only manifest) the shared
falsy guard `if not context.data.get('prepared_dockerfile')` returns first
and the trigger yields zero findings, contrary to the claim — see the
counterexample. -/
theorem C4_noFrom (contents : List Char) (m : PrepMap)
    (_h0 : DockerfileGate.prepare_context (s2c "Actual") (some contents) = .ok (some m))
    (h1 : m ≠ []) (h2 : lookupPM m (s2c "FROM") = none) :
    NoFromTrigger.evaluate (some m) = [Finding.noFrom] := by
  have hg : guardBlocked (some m) = false := by simp [guardBlocked, h1]
  simp [NoFromTrigger.evaluate, hg, ctxMap, h2]

/-- C4 witness: a one-line `RUN` manifest has a non-empty prepared dictionary
without a `FROM` key, and `NoFromTrigger` fires once on it. -/
theorem C4_noFrom_witness :
    NoFromTrigger.evaluate (some [(s2c "RUN", [s2c "RUN apt-get update"])]) =
      [Finding.noFrom] :=
  C4_noFrom (s2c "RUN apt-get update") [(s2c "RUN", [s2c "RUN apt-get update"])]
    rfl (by decide) rfl

/-- C4 counterexample: a mode-`Actual` manifest of only comment and blank
lines produces the empty directive mapping, whose `FROM` key is absent, yet
`NoFromTrigger` fires zero times (the guard treats the empty dictionary as
absence of the prepared manifest), not exactly once as the claim states. -/
theorem C4_noFrom_counterexample :
    DockerfileGate.prepare_context (s2c "Actual") (some (s2c "# comment only\n   \n")) =
      .ok (some []) ∧
    NoFromTrigger.evaluate (some []) = [] ∧
    ([] : List Finding) ≠ [Finding.noFrom] :=
  ⟨rfl, rfl, by decide⟩

/-- C5 (amended): for every `FROM` logical line whose keyword is spelled
`FROM` or `from` (the only spellings the extraction regex
`^\s*(FROM|from)\s+(.*)` accepts), `FromScratch` fires exactly when the
extracted argument equals `scratch` case-insensitively, one finding per such
line and nothing else.  A `FROM` line stored with any other keyword casing
(e.g. `From scratch`) makes the trigger raise an unhandled `AttributeError`
instead — see the counterexample. -/
theorem C5_fromScratch (m : PrepMap) (fl : List (List Char)) (h1 : m ≠ [])
    (h2 : lookupPM m (s2c "FROM") = some fl)
    (h3 : ∀ l ∈ fl, kwArg (s2c "FROM") (s2c "from") l ≠ none) :
    FromScratch.evaluate (some m) =
      .ok (fl.flatMap (fun l =>
        match kwArg (s2c "FROM") (s2c "from") l with
        | some f => if lowerStr f = s2c "scratch" then [Finding.fromScratch f] else []
        | none => [])) := by
  have hg : guardBlocked (some m) = false := by simp [guardBlocked, h1]
  simp only [FromScratch.evaluate, hg, Bool.false_eq_true, if_false, ctxMap, h2,
    Option.getD_some]
  exact exceptConcat_fromScratch fl h3

/-- C5 witness: on the single line `FROM SCRATCH` the trigger fires exactly
once (case-insensitive comparison of the argument). -/
theorem C5_fromScratch_witness :
    FromScratch.evaluate (some [(s2c "FROM", [s2c "FROM SCRATCH"])]) =
      .ok [Finding.fromScratch (s2c "SCRATCH")] :=
  (C5_fromScratch [(s2c "FROM", [s2c "FROM SCRATCH"])] [s2c "FROM SCRATCH"]
    (by decide) rfl (by decide)).trans rfl

/-- C5 counterexample: the preprocessor stores the logical line `From scratch`
under the key `FROM` with its original casing; its argument equals `scratch`
case-insensitively, so the claim says the trigger fires once — but the
extraction regex matches neither `FROM` nor `from`, `fromstr` stays `None`,
and `fromstr.lower()` raises instead of producing a finding. -/
theorem C5_fromScratch_counterexample :
    DockerfileGate.prepare_context (s2c "Actual") (some (s2c "From scratch")) =
      .ok (some [(s2c "FROM", [s2c "From scratch"])]) ∧
    FromScratch.evaluate (some [(s2c "FROM", [s2c "From scratch"])]) = .error () ∧
    (Except.error () : Except Unit (List Finding)) ≠
      .ok [Finding.fromScratch (s2c "scratch")] :=
  ⟨rfl, rfl, fun h => Except.noConfusion h⟩

/-- C6 (amended): with `CHECK = not_exists` the per-line operator is
constantly false, so per-line evaluation contributes nothing, and — provided
the prepared dictionary is NON-EMPTY, so that the shared falsy guard does not
return first — the trigger fires exactly once for each requested directive
(upper-cased, de-duplicated) that is absent from the dictionary's key set,
the set difference of requested minus present directives.  On an empty
dictionary (e.g. a comments-only manifest, which still "has no VOLUME line")
the guard yields zero findings, contrary to the claim — see the
counterexample. -/
theorem C6_directive_not_exists (directivesParam : List (List Char))
    (pat : Option (RegularExpression Char)) (cv : Option (List Char))
    (df : PrepMap) (h : df ≠ []) :
    DirectiveCheckTrigger.evaluate directivesParam (some (s2c "not_exists")) pat cv (some df) =
      .ok ((((directivesParam.map upperStr).dedup).filter
        (fun d => d ∉ df.map (fun e => upperStr e.1))).map Finding.directiveMissing) := by
  have hg : guardBlocked (some df) = false := by simp [guardBlocked, h]
  have hk : DirectiveCheckTrigger.opsKey (s2c "not_exists") = true := rfl
  rw [DirectiveCheckTrigger.evaluate]
  rw [hg]
  simp only [Bool.false_eq_true, if_false]
  rw [hk]
  by_cases hdir : (directivesParam.map upperStr).dedup = []
  · rw [if_neg (by simp), if_pos hdir, hdir]
    simp
  · rw [if_neg (by simp), if_neg hdir]
    rw [dcEntries_not_exists]
    simp [ctxMap]

/-- C6 witness: `DIRECTIVES = VOLUME`, `CHECK = not_exists` on a manifest
with a `FROM` line but no `VOLUME` line yields exactly one finding citing
`VOLUME`. -/
theorem C6_directive_not_exists_witness :
    DirectiveCheckTrigger.evaluate [s2c "VOLUME"] (some (s2c "not_exists")) none none
      (some [(s2c "FROM", [s2c "FROM ubuntu"])]) =
      .ok [Finding.directiveMissing (s2c "VOLUME")] :=
  (C6_directive_not_exists [s2c "VOLUME"] none none
    [(s2c "FROM", [s2c "FROM ubuntu"])] (by decide)).trans rfl

/-- C6 counterexample: a mode-`Actual` comments-only manifest produces the
empty directive mapping — a manifest with no `VOLUME` line at all — yet
`DIRECTIVES = VOLUME`, `CHECK = not_exists` yields ZERO findings on it,
because the falsy guard `if not context.data.get('prepared_dockerfile')`
returns before the set-difference branch; the claim's "fires exactly once for
each requested directive that has no lines at all" predicts one finding
citing `VOLUME`. -/
theorem C6_directive_not_exists_counterexample :
    DockerfileGate.prepare_context (s2c "Actual") (some (s2c "# comment only")) =
      .ok (some []) ∧
    DirectiveCheckTrigger.evaluate [s2c "VOLUME"] (some (s2c "not_exists")) none none
      (some []) = .ok [] ∧
    (Except.ok [] : Except Unit (List Finding)) ≠
      .ok [Finding.directiveMissing (s2c "VOLUME")] :=
  ⟨rfl, rfl, fun h => absurd (Except.ok.inj h) (by decide)⟩

/-- C7: the preprocessor folds a physical line whose stripped form ends in a
backslash into the buffer (dropping the marker, keeping everything else,
without closing the logical line), and concretely the two-physical-line input
`RUN apt-get \` + `update` produces a prepared dictionary whose `RUN` key
holds the single logical line `RUN apt-get update`. -/
theorem C7_line_folding :
    (∀ (l : List Char) (ls : List (List Char)) (m : PrepMap) (buf : List Char),
      pyStrip l ≠ [] → (pyStrip l).head? ≠ some '#' → (pyStrip l).getLast? = some '\\' →
      parseLines (l :: ls) m buf = parseLines ls m (buf ++ (pyStrip l).dropLast)) ∧
    DockerfileGate.prepare_context (s2c "Actual") (some (s2c "RUN apt-get \\\nupdate")) =
      .ok (some [(s2c "RUN", [s2c "RUN apt-get update"])]) := by
  constructor
  · intro l ls m buf h1 h2 h3
    have hcond : ¬ (pyStrip l = [] ∨ (pyStrip l).head? = some '#') := by
      rintro (hc | hc)
      · exact h1 hc
      · exact h2 hc
    rw [parseLines, if_neg hcond, if_pos h3]
  · rfl

/-- C7 witness: the folding equation applied to the physical line
`RUN apt-get \` with an empty buffer, together with the concrete two-line
instance. -/
theorem C7_line_folding_witness :
    parseLines [s2c "RUN apt-get \\"] [] [] =
      parseLines [] [] ([] ++ (pyStrip (s2c "RUN apt-get \\")).dropLast) ∧
    DockerfileGate.prepare_context (s2c "Actual") (some (s2c "RUN apt-get \\\nupdate")) =
      .ok (some [(s2c "RUN", [s2c "RUN apt-get update"])]) :=
  ⟨C7_line_folding.1 (s2c "RUN apt-get \\") [] [] [] (by decide) (by decide) (by decide),
   C7_line_folding.2⟩

/-- C8: the `like` operator of `DirectiveCheckTrigger.ops` is true exactly
when the expected pattern matches starting at position 0 of the observed
string — i.e. accepts some prefix of it, with no requirement to consume all
of it — and `not_like` is its pointwise negation. -/
theorem C8_like_prefix_regex (observed : List Char) (pat : RegularExpression Char) :
    (DirectiveCheckTrigger.op_like observed pat = true ↔
      ∃ p q : List Char, observed = p ++ q ∧ p ∈ pat.matches') ∧
    DirectiveCheckTrigger.op_not_like observed pat
      = !DirectiveCheckTrigger.op_like observed pat := by
  constructor
  · rw [DirectiveCheckTrigger.op_like, pyReMatch, List.any_eq_true]
    constructor
    · rintro ⟨p, hp, hm⟩
      rw [List.mem_inits] at hp
      obtain ⟨q, rfl⟩ := hp
      exact ⟨p, q, rfl, (RegularExpression.rmatch_iff_matches' pat p).mp hm⟩
    · rintro ⟨p, q, rfl, hm⟩
      exact ⟨p, (List.mem_inits _ _).mpr ⟨q, rfl⟩,
        (RegularExpression.rmatch_iff_matches' pat p).mpr hm⟩
  · rfl

/-- C10: the preprocessor upper-cases only the dictionary KEY while storing
the logical line with its original casing — `user root` is stored under
`USER` as `user root` — and the `EffectiveUserTrigger` extraction pattern
(whose `USER` literal is case-sensitive) then fails to match, so the trigger
takes the warn-and-return path and yields zero findings for EVERY `ALLOWED` /
`DENIED` configuration, including `DENIED` containing `root` and a non-empty
`ALLOWED` not containing `root`. -/
theorem C10_user_casing :
    DockerfileGate.prepare_context (s2c "Actual") (some (s2c "user root")) =
      .ok (some [(s2c "USER", [s2c "user root"])]) ∧
    ∀ allowed denied : List (List Char),
      EffectiveUserTrigger.evaluate allowed denied
        (some [(s2c "USER", [s2c "user root"])]) = [] :=
  ⟨rfl, fun _ _ => rfl⟩
